import Mathlib

/-!
Verification of the static-analysis phase in `src/p3-analysis.c` (compiler
phase 3 of a small Decaf-like language).  The analysis walks an AST,
annotates nodes with inferred types, and accumulates diagnostics.

The per-node visitor callbacks are translated directly from the C source.
The surrounding infrastructure (traversal engine, symbol lookup, attribute
map) is not part of the shown source file; it is modelled from the spec
(sections 3, 4.1, 4.2): pre-order callbacks, children in fixed order,
post-order callbacks; symbol lookup searches the local scope first and then
the parent chain; the per-node attribute map is write-logged with the most
recent write visible to reads.

Null-pointer dereferences in the C code are modelled by returning
`Option.none` from the embedded function ("crash"); a completed run returns
`Option.some` of the diagnostic list.
-/

namespace Decaf

/-- The `DecafType` enumeration from the common header.  `UNKNOWN` (value 0)
is what a cast of a missing attribute pointer yields. -/
inductive DecafType : Type where
  | UNKNOWN
  | INT
  | BOOL
  | VOID
  | STR
deriving DecidableEq

/-- Binary operator tags, as in the common header. -/
inductive BinaryOpType : Type where
  | OROP | ANDOP
  | EQOP | NEQOP
  | LTOP | LEOP | GEOP | GTOP
  | ADDOP | SUBOP | MULOP | DIVOP | MODOP
deriving DecidableEq

/-- Unary operator tags, as in the common header. -/
inductive UnaryOpType : Type where
  | NEGOP | NOTOP
deriving DecidableEq

/-- A symbol-table entry: name, declared type, length (1 for scalars,
N for arrays; the C field is an `int`), and the declared parameter types of
a function symbol.  Built by the prior phase; the analysis only reads it. -/
structure Symbol : Type where
  name : String
  type : DecafType
  length : Int
  parameters : List DecafType
deriving DecidableEq

/-- One diagnostic, one constructor per `ErrorList_printf` format string in
the C source, carrying exactly the data interpolated into that message.
The three per-operator-class binary-operation messages share one
constructor since each records the operator and both operand types. -/
inductive Diag : Type where
  | voidVar (name : String) (line : Nat)
  | invalidVarName (name : String) (line : Nat)
  | invalidArrayDecl (length : Int)
  | dupSymbol (name : String) (line : Nat)
  | undefinedSymbol (name : String) (line : Nat)
  | invalidArrayAccessScalar (line : Nat)
  | arrayIndexNegative (name : String) (index : Int) (line : Nat)
  | arrayIndexTooBig (name : String) (index : Int) (line : Nat)
  | invalidBreak (line : Nat)
  | invalidContinue (line : Nat)
  | noMain
  | mainHasParams (line : Nat)
  | assignMismatch (line : Nat) (name : String) (expected actual : DecafType)
  | returnMismatch (line : Nat) (expected actual : DecafType)
  | condMismatch (line : Nat) (expected actual : DecafType)
  | binopMismatch (line : Nat) (op : BinaryOpType) (left right : DecafType)
  | unopMismatch (line : Nat) (op : UnaryOpType) (expected actual : DecafType)
  | invalidArgType (line : Nat)
  | nullTree
deriving DecidableEq

mutual
/-- The AST, one constructor per node kind.  Scope-introducing nodes carry
the symbol table attached by the prior phase.  Child lists are linked lists
(`ASTList`), matching the C `NodeList`; optional children (`ASTOpt`) model
possibly-NULL child pointers. -/
inductive ASTNode : Type where
  | Program (source_line : Nat) (symbolTable : List Symbol)
      (vardecls : ASTList) (funcdecls : ASTList)
  | VarDecl (source_line : Nat) (name : String) (type : DecafType)
      (isArray : Bool) (arrayLength : Int)
  | FuncDecl (source_line : Nat) (name : String) (returnType : DecafType)
      (symbolTable : List Symbol) (body : ASTNode)
  | Block (source_line : Nat) (symbolTable : List Symbol)
      (vardecls : ASTList) (stmts : ASTList)
  | Assignment (source_line : Nat) (location : ASTNode) (value : ASTNode)
  | Conditional (source_line : Nat) (condition : ASTNode)
      (ifBlock : ASTNode) (elseBlock : ASTOpt)
  | WhileLoop (source_line : Nat) (condition : ASTNode) (body : ASTNode)
  | FuncReturn (source_line : Nat) (value : ASTOpt)
  | Break (source_line : Nat)
  | Continue (source_line : Nat)
  | BinaryOp (source_line : Nat) (op : BinaryOpType)
      (left : ASTNode) (right : ASTNode)
  | UnaryOp (source_line : Nat) (op : UnaryOpType) (child : ASTNode)
  | Location (source_line : Nat) (name : String) (index : ASTOpt)
  | FuncCall (source_line : Nat) (name : String) (arguments : ASTList)
  | Literal (source_line : Nat) (type : DecafType) (value : Int)

/-- A linked list of AST nodes (the C `NodeList`). -/
inductive ASTList : Type where
  | nil
  | cons (head : ASTNode) (tail : ASTList)

/-- A possibly-absent AST child (a possibly-NULL child pointer in C). -/
inductive ASTOpt : Type where
  | none
  | some (node : ASTNode)
end

/-- The chain of symbol tables visible from a node: the node's own table (if
any) followed by the tables of its ancestors, innermost first. -/
abbrev Scopes := List (List Symbol)

/-- Modelled from the spec (section 3): `lookup_symbol` is not in the shown
source; lookup searches the local collection first, then the parent chain,
returning the nearest enclosing match. -/
def lookup_symbol (env : Scopes) (name : String) : Option Symbol :=
  match env with
  | [] => Option.none
  | t :: rest =>
    match t.find? (fun s => s.name == name) with
    | Option.some s => Option.some s
    | Option.none => lookup_symbol rest name

/-- The mutable analysis state (`AnalysisData` in the C source), minus the
error list, which the embedding returns separately so that each visit's
newly appended diagnostics are explicit. -/
structure St : Type where
  current_func : Option String
  in_while : Bool
  curr_table : List Symbol
  program_table : List Symbol

/-- `AnalysisData_new`: all state fields start cleared (`curr_table` and
`program_table` are NULL in C, modelled as the empty table). -/
def AnalysisData_new : St :=
  { current_func := Option.none, in_while := false,
    curr_table := [], program_table := [] }

/-- `check_for_duplicates`: counts occurrences of `name` in the current
table's local symbols and reports one duplicate diagnostic, at this node's
line, whenever the count exceeds one.  The C `strncmp` bound of
`MAX_ID_LEN` is modelled as plain string equality. -/
def check_for_duplicates (table : List Symbol) (line : Nat) (name : String) :
    List Diag :=
  let dup := (table.filter (fun s => s.name == name)).length
  if dup > 1 then [Diag.dupSymbol name line] else []

/-- `AnalysisVisitor_pre_vardecl`, diagnostic part: void check, reserved
name check, and the array-length check, which tests `array_length < 0`
(so a declared length of exactly 0 passes silently even though the message
text demands a length greater than 0). -/
def AnalysisVisitor_pre_vardecl (line : Nat) (name : String)
    (ty : DecafType) (isArray : Bool) (arrayLength : Int) : List Diag :=
  (if ty = DecafType.VOID then [Diag.voidVar name line] else []) ++
  (if name = "main" then [Diag.invalidVarName name line] else []) ++
  (if isArray = true ∧ arrayLength < 0
   then [Diag.invalidArrayDecl arrayLength] else [])

/-- `AnalysisVisitor_check_break`: report unless the `in_while` flag is
set. -/
def AnalysisVisitor_check_break (inWhile : Bool) (line : Nat) : List Diag :=
  if inWhile = false then [Diag.invalidBreak line] else []

/-- `AnalysisVisitor_check_continue`: report unless the `in_while` flag is
set. -/
def AnalysisVisitor_check_continue (inWhile : Bool) (line : Nat) :
    List Diag :=
  if inWhile = false then [Diag.invalidContinue line] else []

/-- `AnalysisVisitor_post_while`: clears the `in_while` flag.  This
function exists in the source, but `analyze` never assigns it to
`postvisit_whileloop` (the post-visit registration block covers program,
vardecl, funcdecl, funccall, assignment, conditional, location, return,
binaryop and unaryop only), so it is dead code: the traversal never calls
it and the flag, once set, is never cleared. -/
def AnalysisVisitor_post_while (st : St) : St :=
  { st with in_while := false }

/-- `AnalysisVisitor_pre_binop`: arithmetic operators infer INT, every
other operator infers BOOL (the C if/else). -/
def AnalysisVisitor_pre_binop (op : BinaryOpType) : DecafType :=
  if op = BinaryOpType.ADDOP ∨ op = BinaryOpType.SUBOP ∨
     op = BinaryOpType.MULOP ∨ op = BinaryOpType.DIVOP ∨
     op = BinaryOpType.MODOP
  then DecafType.INT else DecafType.BOOL

/-- `AnalysisVisitor_pre_unop`, as the sequence of writes it performs on
the node's type attribute.  The C switch has no break statements, so
control entering the `NEGOP` case falls through into the `NOTOP` case:
a NEGOP node's attribute is written twice, INT and then BOOL. -/
def AnalysisVisitor_pre_unop (op : UnaryOpType) : List DecafType :=
  (if op = UnaryOpType.NEGOP then [DecafType.INT] else []) ++
  (if op = UnaryOpType.NEGOP ∨ op = UnaryOpType.NOTOP
   then [DecafType.BOOL] else [])

/-- The value a read of the type attribute sees after a list of writes: the
most recent write (the attribute list is prepended to), or UNKNOWN (a NULL
attribute pointer cast to `DecafType`) if nothing was written. -/
def attr_value (writes : List DecafType) : DecafType :=
  writes.getLastD DecafType.UNKNOWN

/-- `AnalysisVisitor_pre_location` / `AnalysisVisitor_pre_funcCall`
inferred type: the looked-up symbol's type, or VOID when lookup fails. -/
def inferred_type_of_lookup (env : Scopes) (name : String) : DecafType :=
  match lookup_symbol env name with
  | Option.none => DecafType.VOID
  | Option.some s => s.type

/-- `AnalysisVisitor_pre_return` inferred type: the type of the symbol
found by looking up the current function's name; VOID when the lookup
fails.  (A NULL `CURR_FUNC` cannot occur for a return statement inside a
function body; it is modelled as a failed lookup.) -/
def AnalysisVisitor_pre_return (env : Scopes)
    (currentFunc : Option String) : DecafType :=
  match currentFunc with
  | Option.none => DecafType.VOID
  | Option.some f =>
    match lookup_symbol env f with
    | Option.none => DecafType.VOID
    | Option.some s => s.type

/-- The C code reads `loc->literal.integer` from the index child without
checking that it is a Literal; for a non-literal node that is a read of an
inactive union member, modelled here as the fixed value 0. -/
def literal_integer (n : ASTNode) : Int :=
  match n with
  | ASTNode.Literal _ _ v => v
  | _ => 0

/-- The C code reads `loc->location.name` from an assignment's location
child; for a non-Location node that is a read of an inactive union member,
modelled as the empty string. -/
def location_name (n : ASTNode) : String :=
  match n with
  | ASTNode.Location _ nm _ => nm
  | _ => ""

/-- `AnalysisVisitor_post_location`.  Non-indexed case: report an undefined
symbol, or a scalar use of an array (length > 1).  Indexed case: a negative
literal index is reported before the symbol is consulted; otherwise the C
code dereferences `sym->length` without a null check, so an undefined name
with a non-negative index crashes (`Option.none`); an in-range index yields
no diagnostic and an index at or past the length is reported. -/
def AnalysisVisitor_post_location (env : Scopes) (name : String)
    (index : ASTOpt) (line : Nat) : Option (List Diag) :=
  match index with
  | ASTOpt.none =>
    match lookup_symbol env name with
    | Option.none => Option.some [Diag.undefinedSymbol name line]
    | Option.some sym1 =>
      if sym1.length > 1 then Option.some [Diag.invalidArrayAccessScalar line]
      else Option.some []
  | ASTOpt.some loc =>
    let sym := lookup_symbol env name
    let idx := literal_integer loc
    if idx < 0 then
      Option.some [Diag.arrayIndexNegative name idx line]
    else
      match sym with
      | Option.none => Option.none
      | Option.some s =>
        if idx ≥ s.length then
          Option.some [Diag.arrayIndexTooBig name idx line]
        else Option.some []

/-- `AnalysisVisitor_check_main`: the two successive if statements of the C
code — report a missing `main`, and, when `main` exists, report a nonempty
parameter list using the visited node's own source line (this callback is
registered as the Program post-visit, so that is the Program node's line). -/
def AnalysisVisitor_check_main (env : Scopes) (line : Nat) : List Diag :=
  (match lookup_symbol env "main" with
   | Option.none => [Diag.noMain]
   | Option.some _ => []) ++
  (match lookup_symbol env "main" with
   | Option.none => []
   | Option.some m =>
     if m.parameters ≠ [] then [Diag.mainHasParams line] else [])

/-- `AnalysisVisitor_post_assignment`: the location's and value's inferred
types must agree. -/
def AnalysisVisitor_post_assignment (line : Nat) (name : String)
    (tloc tval : DecafType) : List Diag :=
  if tloc ≠ tval then [Diag.assignMismatch line name tloc tval] else []

/-- `AnalysisVisitor_post_return`: the C if/else-if chain, restructured by
first distinguishing a NULL return value.  With no value, a non-VOID
expected type is reported; with a value, a VOID value type is suppressed,
and otherwise a disagreement with the expected type is reported. -/
def AnalysisVisitor_post_return (line : Nat) (nodeType : DecafType)
    (valueType : Option DecafType) : List Diag :=
  match valueType with
  | Option.none =>
    if nodeType ≠ DecafType.VOID
    then [Diag.returnMismatch line nodeType DecafType.VOID] else []
  | Option.some vt =>
    if vt = DecafType.VOID then []
    else if nodeType ≠ vt then [Diag.returnMismatch line nodeType vt]
    else []

/-- `AnalysisVisitor_post_conditional`: the node's inferred type (BOOL, set
by the pre-visit) must agree with the condition's inferred type. -/
def AnalysisVisitor_post_conditional (line : Nat)
    (nodeType condType : DecafType) : List Diag :=
  if nodeType ≠ condType then [Diag.condMismatch line nodeType condType]
  else []

/-- `AnalysisVisitor_post_binop`: per-operator-class operand checks. -/
def AnalysisVisitor_post_binop (line : Nat) (op : BinaryOpType)
    (left right : DecafType) : List Diag :=
  if op = BinaryOpType.OROP ∨ op = BinaryOpType.ANDOP then
    if left ≠ DecafType.BOOL ∨ right ≠ DecafType.BOOL
    then [Diag.binopMismatch line op left right] else []
  else if op = BinaryOpType.EQOP ∨ op = BinaryOpType.NEQOP then
    if left ≠ right then [Diag.binopMismatch line op left right] else []
  else if op = BinaryOpType.LTOP ∨ op = BinaryOpType.LEOP ∨
          op = BinaryOpType.GEOP ∨ op = BinaryOpType.GTOP then
    if left ≠ DecafType.INT ∨ right ≠ DecafType.INT
    then [Diag.binopMismatch line op left right] else []
  else if op = BinaryOpType.ADDOP ∨ op = BinaryOpType.SUBOP ∨
          op = BinaryOpType.MULOP ∨ op = BinaryOpType.DIVOP ∨
          op = BinaryOpType.MODOP then
    if left ≠ DecafType.INT ∨ right ≠ DecafType.INT
    then [Diag.binopMismatch line op left right] else []
  else []

/-- `AnalysisVisitor_post_unop`: the node's inferred type must agree with
the child's inferred type. -/
def AnalysisVisitor_post_unop (line : Nat) (op : UnaryOpType)
    (nodeType childType : DecafType) : List Diag :=
  if nodeType ≠ childType
  then [Diag.unopMismatch line op nodeType childType] else []

/-- `AnalysisVisitor_post_funcCall`: the C code dereferences the lookup
result, the parameter-list head, and the argument-list head without null
checks, so an unresolved callee, a zero-parameter callee, or a zero-argument
call crashes (`Option.none`).  Otherwise only the first declared parameter
type is compared with the first argument's inferred type. -/
def AnalysisVisitor_post_funcCall (env : Scopes) (name : String)
    (argTypes : List DecafType) (line : Nat) : Option (List Diag) :=
  match lookup_symbol env name with
  | Option.none => Option.none
  | Option.some func =>
    match func.parameters with
    | [] => Option.none
    | p :: _ =>
      match argTypes with
      | [] => Option.none
      | a :: _ =>
        Option.some (if p ≠ a then [Diag.invalidArgType line] else [])

mutual
/-- The traversal, modelled from the spec (section 4.1): entry callbacks,
then children in the fixed kind-specific order, then exit callbacks;
unregistered kinds are traversed with no callback.  `env` is the chain of
symbol tables at this node.  Returns the updated state, the value a read of
this node's type attribute sees after its subtree is done (UNKNOWN for
kinds whose callbacks never set it), and the diagnostics appended during
this subtree's visit, in emission order; `Option.none` means the C code
crashed inside this subtree. -/
def visit (env : Scopes) (node : ASTNode) (st : St) :
    Option (St × DecafType × List Diag) :=
  match node with
  | ASTNode.Program line tab vars funcs =>
    -- AnalysisVisitor_pre_program: CURR_TABLE and PROGRAM_TABLE
    let st1 : St := { st with curr_table := tab, program_table := tab }
    let env1 : Scopes := [tab]
    match visitList env1 vars st1 with
    | Option.none => Option.none
    | Option.some (st2, _, d1) =>
      match visitList env1 funcs st2 with
      | Option.none => Option.none
      | Option.some (st3, _, d2) =>
        -- postvisit_program = AnalysisVisitor_check_main
        Option.some (st3, DecafType.UNKNOWN,
          d1 ++ d2 ++ AnalysisVisitor_check_main env1 line)
  | ASTNode.VarDecl line name ty isArray arrayLength =>
    let d1 := AnalysisVisitor_pre_vardecl line name ty isArray arrayLength
    -- postvisit_vardecl = check_for_duplicates on CURR_TABLE
    let d2 := check_for_duplicates st.curr_table line name
    Option.some (st, ty, d1 ++ d2)
  | ASTNode.FuncDecl line name retTy tab body =>
    -- AnalysisVisitor_pre_funcdecl: CURR_FUNC, inferred type, duplicate
    -- check against the table in force BEFORE switching to this
    -- function's own table
    let d1 := check_for_duplicates st.curr_table line name
    let st1 : St :=
      { st with current_func := Option.some name, curr_table := tab }
    match visit (tab :: env) body st1 with
    | Option.none => Option.none
    | Option.some (st2, _, d2) =>
      -- AnalysisVisitor_post_funcdecl
      Option.some ({ st2 with current_func := Option.none,
                              curr_table := st2.program_table },
        retTy, d1 ++ d2)
  | ASTNode.Block _line tab vars stmts =>
    -- AnalysisVisitor_pre_block; no post-visit callback is registered
    let st1 : St := { st with curr_table := tab }
    let env1 : Scopes := tab :: env
    match visitList env1 vars st1 with
    | Option.none => Option.none
    | Option.some (st2, _, d1) =>
      match visitList env1 stmts st2 with
      | Option.none => Option.none
      | Option.some (st3, _, d2) =>
        Option.some (st3, DecafType.UNKNOWN, d1 ++ d2)
  | ASTNode.Assignment line loc val =>
    match visit env loc st with
    | Option.none => Option.none
    | Option.some (st1, tloc, d1) =>
      match visit env val st1 with
      | Option.none => Option.none
      | Option.some (st2, tval, d2) =>
        Option.some (st2, DecafType.UNKNOWN,
          d1 ++ d2 ++
            AnalysisVisitor_post_assignment line (location_name loc)
              tloc tval)
  | ASTNode.Conditional line cond ifb elseb =>
    -- AnalysisVisitor_pre_conditional sets the node's type to BOOL
    match visit env cond st with
    | Option.none => Option.none
    | Option.some (st1, tc, d1) =>
      match visit env ifb st1 with
      | Option.none => Option.none
      | Option.some (st2, _, d2) =>
        match visitOpt env elseb st2 with
        | Option.none => Option.none
        | Option.some (st3, _, d3) =>
          Option.some (st3, DecafType.BOOL,
            d1 ++ d2 ++ d3 ++
              AnalysisVisitor_post_conditional line DecafType.BOOL tc)
  | ASTNode.WhileLoop _line cond body =>
    -- AnalysisVisitor_pre_while: IN_WHILE := true, type BOOL.
    -- analyze registers no postvisit_whileloop callback
    -- (AnalysisVisitor_post_while is dead code), so nothing clears the
    -- flag when the loop's subtree is done.
    let st1 : St := { st with in_while := true }
    match visit env cond st1 with
    | Option.none => Option.none
    | Option.some (st2, _, d1) =>
      match visit env body st2 with
      | Option.none => Option.none
      | Option.some (st3, _, d2) =>
        Option.some (st3, DecafType.BOOL, d1 ++ d2)
  | ASTNode.FuncReturn line value =>
    let nodeType := AnalysisVisitor_pre_return env st.current_func
    match visitOpt env value st with
    | Option.none => Option.none
    | Option.some (st1, vt, d1) =>
      Option.some (st1, nodeType,
        d1 ++ AnalysisVisitor_post_return line nodeType vt)
  | ASTNode.Break line =>
    Option.some (st, DecafType.UNKNOWN,
      AnalysisVisitor_check_break st.in_while line)
  | ASTNode.Continue line =>
    Option.some (st, DecafType.UNKNOWN,
      AnalysisVisitor_check_continue st.in_while line)
  | ASTNode.BinaryOp line op l r =>
    let t := AnalysisVisitor_pre_binop op
    match visit env l st with
    | Option.none => Option.none
    | Option.some (st1, tl, d1) =>
      match visit env r st1 with
      | Option.none => Option.none
      | Option.some (st2, tr, d2) =>
        Option.some (st2, t,
          d1 ++ d2 ++ AnalysisVisitor_post_binop line op tl tr)
  | ASTNode.UnaryOp line op child =>
    let t := attr_value (AnalysisVisitor_pre_unop op)
    match visit env child st with
    | Option.none => Option.none
    | Option.some (st1, tc, d1) =>
      Option.some (st1, t, d1 ++ AnalysisVisitor_post_unop line op t tc)
  | ASTNode.Location line name idx =>
    let t := inferred_type_of_lookup env name
    match visitOpt env idx st with
    | Option.none => Option.none
    | Option.some (st1, _, d1) =>
      match AnalysisVisitor_post_location env name idx line with
      | Option.none => Option.none
      | Option.some d2 => Option.some (st1, t, d1 ++ d2)
  | ASTNode.FuncCall line name args =>
    let t := inferred_type_of_lookup env name
    match visitList env args st with
    | Option.none => Option.none
    | Option.some (st1, argTys, d1) =>
      match AnalysisVisitor_post_funcCall env name argTys line with
      | Option.none => Option.none
      | Option.some d2 => Option.some (st1, t, d1 ++ d2)
  | ASTNode.Literal _line ty _v =>
    Option.some (st, ty, [])

/-- Visit the nodes of a list left to right, threading the state and
collecting each node's attribute-type value and diagnostics in order. -/
def visitList (env : Scopes) (ns : ASTList) (st : St) :
    Option (St × List DecafType × List Diag) :=
  match ns with
  | ASTList.nil => Option.some (st, [], [])
  | ASTList.cons n rest =>
    match visit env n st with
    | Option.none => Option.none
    | Option.some (st1, t, d1) =>
      match visitList env rest st1 with
      | Option.none => Option.none
      | Option.some (st2, ts, d2) => Option.some (st2, t :: ts, d1 ++ d2)

/-- Visit an optional child; an absent child contributes nothing. -/
def visitOpt (env : Scopes) (o : ASTOpt) (st : St) :
    Option (St × Option DecafType × List Diag) :=
  match o with
  | ASTOpt.none => Option.some (st, Option.none, [])
  | ASTOpt.some n =>
    match visit env n st with
    | Option.none => Option.none
    | Option.some (st1, t, d) => Option.some (st1, Option.some t, d)
end

/-- `analyze`: a NULL tree yields the single "Null tree" diagnostic with no
traversal; otherwise one full traversal from a fresh `AnalysisData`, whose
accumulated error list is returned.  `Option.none` models the process
crashing inside the traversal. -/
def analyze (tree : Option ASTNode) : Option (List Diag) :=
  match tree with
  | Option.none => Option.some [Diag.nullTree]
  | Option.some t =>
    match visit [] t AnalysisData_new with
    | Option.none => Option.none
    | Option.some (_, _, ds) => Option.some ds

/-- Specification of one scalar variable declaration: its source line, name
and declared type.  Used to build programs consisting of a global scope full
of variable declarations, the shape the duplicate-declaration claim is
about. -/
structure VDSpec : Type where
  line : Nat
  name : String
  ty : DecafType

/-- The symbol the prior phase would enter into the scope's table for a
scalar declaration. -/
def symOfVD (v : VDSpec) : Symbol := ⟨v.name, v.ty, 1, []⟩

/-- The AST list of the variable declarations described by `vs`. -/
def mkVarDecls : List VDSpec → ASTList
  | [] => ASTList.nil
  | v :: vs =>
    ASTList.cons (ASTNode.VarDecl v.line v.name v.ty false 1) (mkVarDecls vs)

/-- A program whose global scope holds exactly the declarations `vs` (with
the matching symbol table attached by the prior phase) and no functions. -/
def mkVarProgram (vs : List VDSpec) : ASTNode :=
  ASTNode.Program 1 (vs.map symOfVD) (mkVarDecls vs) ASTList.nil

/-- Recognizes the duplicate-symbol diagnostic for the name `x`. -/
def isDupFor (x : String) : Diag → Bool
  | Diag.dupSymbol n _ => n == x
  | _ => false

/-- The sublist of duplicate-symbol diagnostics for the name `x`, in
emission order. -/
def dupDiags (x : String) (ds : List Diag) : List Diag :=
  ds.filter (isDupFor x)

theorem dupDiags_append (x : String) (a b : List Diag) :
    dupDiags x (a ++ b) = dupDiags x a ++ dupDiags x b := by
  simp [dupDiags, List.filter_append]

theorem dupDiags_flatten (x : String) (ls : List (List Diag)) :
    dupDiags x ls.flatten = (ls.map (dupDiags x)).flatten := by
  induction ls with
  | nil => rfl
  | cons l ls ih => simp [List.flatten, dupDiags_append, ih]

theorem dupDiags_pre_vardecl (x : String) (l : Nat) (n : String)
    (t : DecafType) (ia : Bool) (al : Int) :
    dupDiags x (AnalysisVisitor_pre_vardecl l n t ia al) = [] := by
  unfold AnalysisVisitor_pre_vardecl dupDiags
  split_ifs <;> simp [isDupFor]

theorem dupDiags_check_for_duplicates (tab : List Symbol) (l : Nat)
    (n x : String) :
    dupDiags x (check_for_duplicates tab l n) =
      if n = x ∧ 1 < (tab.filter (fun s => s.name == n)).length
      then [Diag.dupSymbol n l] else [] := by
  unfold check_for_duplicates dupDiags
  by_cases hc : 1 < (tab.filter (fun s => s.name == n)).length
  · by_cases hx : n = x <;>
      simp [hc, hx, isDupFor, List.filter_cons]
  · simp [hc]

theorem dupDiags_check_main (x : String) (env : Scopes) (line : Nat) :
    dupDiags x (AnalysisVisitor_check_main env line) = [] := by
  unfold AnalysisVisitor_check_main dupDiags
  cases lookup_symbol env "main" with
  | none => simp [isDupFor]
  | some m =>
    by_cases hp : m.parameters = [] <;>
      simp [hp, List.filter_append, isDupFor]

theorem filter_map_symOfVD (vs : List VDSpec) (x : String) :
    ((vs.map symOfVD).filter (fun s => s.name == x)).length =
      (vs.filter (fun v => v.name == x)).length := by
  induction vs with
  | nil => rfl
  | cons v vs ih =>
    by_cases h : v.name = x <;> simp [symOfVD, List.filter_cons, h, ih]

theorem flatten_dup_ite (vs : List VDSpec) (x : String) (tab : List Symbol) :
    (vs.map (fun v =>
      if v.name = x ∧ 1 < (tab.filter (fun s => s.name == v.name)).length
      then [Diag.dupSymbol v.name v.line] else [])).flatten =
    (if 1 < (tab.filter (fun s => s.name == x)).length
     then (vs.filter (fun v => v.name == x)).map
           (fun v => Diag.dupSymbol x v.line)
     else []) := by
  induction vs with
  | nil => simp
  | cons v vs ih =>
    by_cases hv : v.name = x
    · subst hv
      by_cases hc : 1 < (tab.filter (fun s => s.name == v.name)).length <;>
        simp [List.filter_cons, hc, ih]
    · have hb : (v.name == x) = false := by
        simp [hv]
      simp [List.filter_cons, hv, hb, ih]

theorem visitList_mkVarDecls (env : Scopes) (vs : List VDSpec) (st : St) :
    visitList env (mkVarDecls vs) st =
      Option.some (st, vs.map (fun v => v.ty),
        (vs.map (fun v =>
          AnalysisVisitor_pre_vardecl v.line v.name v.ty false 1 ++
          check_for_duplicates st.curr_table v.line v.name)).flatten) := by
  induction vs with
  | nil => simp [mkVarDecls, visitList]
  | cons v vs ih => simp [mkVarDecls, visitList, visit, ih, List.flatten]

/-- C1 (counterexample): a global scope with three VarDecls sharing the
name `a` (and the matching three-entry symbol table from the prior phase)
produces THREE duplicate-symbol diagnostics — `check_for_duplicates` fires
at the post-visit of every declaration whose name occurs more than once in
the scope's table, including the first — not the two the claim predicts. -/
theorem c1_counterexample :
    (analyze (Option.some (mkVarProgram
        [⟨2, "a", DecafType.INT⟩, ⟨3, "a", DecafType.INT⟩,
         ⟨4, "a", DecafType.INT⟩]))).map
        (fun ds => (dupDiags "a" ds).length) = Option.some 3 ∧
    (3 : Nat) ≠ 2 := by
  constructor
  · decide
  · decide

/-- C1 (amended): for a scope containing N > 1 declarations of the same
name, the analysis emits exactly N duplicate-symbol diagnostics — one per
declaration of that name, including the first occurrence, each attributed
to that declaration's own line — and none when the name is declared at most
once.  Stated for a program whose global scope holds the declarations `vs`
and the symbol table the prior phase builds from them. -/
theorem c1_one_dup_diag_per_declaration (vs : List VDSpec) (x : String) :
    (analyze (Option.some (mkVarProgram vs))).map (dupDiags x) =
      Option.some
        (if 1 < (vs.filter (fun v => v.name == x)).length
         then (vs.filter (fun v => v.name == x)).map
               (fun v => Diag.dupSymbol x v.line)
         else []) := by
  simp only [analyze, mkVarProgram, visit.eq_def, visitList_mkVarDecls,
    visitList, Option.map_some']
  simp only [dupDiags_append, dupDiags_flatten, dupDiags_check_main,
    List.map_map, List.append_nil]
  have hcomp :
      (dupDiags x ∘ fun v : VDSpec =>
        AnalysisVisitor_pre_vardecl v.line v.name v.ty false 1 ++
        check_for_duplicates (vs.map symOfVD) v.line v.name) =
      fun v : VDSpec =>
        if v.name = x ∧
            1 < ((vs.map symOfVD).filter
                  (fun s => s.name == v.name)).length
        then [Diag.dupSymbol v.name v.line] else [] := by
    funext v
    simp [Function.comp, dupDiags_append, dupDiags_pre_vardecl,
      dupDiags_check_for_duplicates]
  rw [hcomp, flatten_dup_ite, filter_map_symOfVD]

/-- C2 (code evaluated at the failing input): a program whose `main` body
contains a single call `foo()` to an undefined function makes `analyze`
crash — `AnalysisVisitor_post_funcCall` dereferences the NULL result of
`lookup_symbol` — instead of returning a diagnostic sequence. -/
theorem c2_crash_on_undefined_call :
    analyze (Option.some (ASTNode.Program 1
      [⟨"main", DecafType.VOID, 1, []⟩]
      ASTList.nil
      (ASTList.cons (ASTNode.FuncDecl 2 "main" DecafType.VOID []
        (ASTNode.Block 2 [] ASTList.nil
          (ASTList.cons (ASTNode.FuncCall 3 "foo" ASTList.nil)
            ASTList.nil)))
        ASTList.nil))) = Option.none := by
  decide

/-- C3 (code evaluated at the failing input): a Break on line 5 that sits
OUTSIDE any WhileLoop, placed after a WhileLoop that appears earlier in
the same body, yields NO diagnostic — the earlier loop's previsit sets the
`in_while` flag and `analyze` never registers `postvisit_whileloop`
(`AnalysisVisitor_post_while` is dead code), so the flag is still set when
the Break is visited — while the claim says a Break outside any enclosing
WhileLoop always yields exactly one diagnostic naming its line. -/
theorem c3_break_after_loop_not_flagged :
    analyze (Option.some (ASTNode.Program 1
      [⟨"main", DecafType.VOID, 1, []⟩]
      ASTList.nil
      (ASTList.cons (ASTNode.FuncDecl 2 "main" DecafType.VOID []
        (ASTNode.Block 2 [] ASTList.nil
          (ASTList.cons (ASTNode.WhileLoop 3
              (ASTNode.Literal 3 DecafType.BOOL 1)
              (ASTNode.Block 3 [] ASTList.nil ASTList.nil))
            (ASTList.cons (ASTNode.Break 5) ASTList.nil))))
        ASTList.nil))) = Option.some [] := by
  decide

/-- C4 (code evaluated at the failing input): for a numeric-negation
UnaryOp the switch in `AnalysisVisitor_pre_unop` falls through (no break
statement), so the node's inferred-type attribute is written TWICE — INT
and then BOOL — and a read afterwards sees BOOL, while the claim says the
type is INT and is set exactly once. -/
theorem c4_negop_type_written_twice :
    AnalysisVisitor_pre_unop UnaryOpType.NEGOP =
      [DecafType.INT, DecafType.BOOL] ∧
    (AnalysisVisitor_pre_unop UnaryOpType.NEGOP).length ≠ 1 ∧
    attr_value (AnalysisVisitor_pre_unop UnaryOpType.NEGOP) =
      DecafType.BOOL := by
  refine ⟨by decide, by decide, by decide⟩

/-- C5 (code evaluated at the failing input): an array VarDecl with a
declared length of exactly 0 never receives the invalid-array-declaration
diagnostic — the C code tests `array_length < 0`, so only negative lengths
are flagged — while the claim (and the code's own message text, which
demands a length greater than 0) requires every length < 1 to be
flagged. -/
theorem c5_zero_length_array_not_flagged (line : Nat) (name : String)
    (ty : DecafType) :
    Diag.invalidArrayDecl 0 ∉
      AnalysisVisitor_pre_vardecl line name ty true 0 := by
  unfold AnalysisVisitor_pre_vardecl
  split_ifs <;> simp_all

/-- C6: for an indexed Location whose index is a literal integer and whose
name resolves to a symbol of declared length L, the post-visit completes
and is silent exactly on indices 0..L-1; any negative literal index and any
index at or beyond L each produce exactly one diagnostic. -/
theorem c6_literal_index_bounds (env : Scopes) (name : String)
    (sym : Symbol) (h : lookup_symbol env name = Option.some sym)
    (hpos : 0 < sym.length) (lline line : Nat) (i : Int) :
    ∃ ds, AnalysisVisitor_post_location env name
        (ASTOpt.some (ASTNode.Literal lline DecafType.INT i)) line =
        Option.some ds ∧
      (ds = [] ↔ 0 ≤ i ∧ i < sym.length) ∧
      (i < 0 → ds = [Diag.arrayIndexNegative name i line]) ∧
      (sym.length ≤ i → ds = [Diag.arrayIndexTooBig name i line]) := by
  unfold AnalysisVisitor_post_location literal_integer
  rw [h]
  by_cases h0 : i < 0
  · refine ⟨[Diag.arrayIndexNegative name i line], by simp [h0], ?_, ?_, ?_⟩
    · simp
      omega
    · intro
      rfl
    · intro hL
      omega
  · by_cases h1 : i ≥ sym.length
    · refine ⟨[Diag.arrayIndexTooBig name i line], by simp [h0, h1],
        ?_, ?_, ?_⟩
      · simp
        omega
      · intro
        omega
      · intro
        rfl
    · refine ⟨[], by simp [h0, h1], ?_, ?_, ?_⟩
      · simp
        omega
      · intro
        omega
      · intro
        omega

/-- C6 witness: with a symbol of declared length 5 in scope, index 2 on
line 7 completes silently (instantiating the bounds theorem). -/
theorem c6_witness :
    ∃ ds, AnalysisVisitor_post_location [[⟨"a", DecafType.INT, 5, []⟩]]
        "a" (ASTOpt.some (ASTNode.Literal 1 DecafType.INT 2)) 7 =
        Option.some ds ∧
      (ds = [] ↔ 0 ≤ (2 : Int) ∧ (2 : Int) <
        (⟨"a", DecafType.INT, 5, []⟩ : Symbol).length) ∧
      ((2 : Int) < 0 → ds = [Diag.arrayIndexNegative "a" 2 7]) ∧
      ((⟨"a", DecafType.INT, 5, []⟩ : Symbol).length ≤ (2 : Int) →
        ds = [Diag.arrayIndexTooBig "a" 2 7]) :=
  c6_literal_index_bounds [[⟨"a", DecafType.INT, 5, []⟩]] "a"
    ⟨"a", DecafType.INT, 5, []⟩ rfl (by decide) 1 7 2

/-- C7: the return post-visit reports a mismatch exactly when either the
return has no value and the enclosing function's type is not VOID, or the
return has a value whose inferred type is neither VOID (the suppressed
recovered-error case) nor equal to the function's type; in particular an
INT value returned from a VOID function is still reported. -/
theorem c7_return_type_mismatch :
    (∀ (line : Nat) (nodeType : DecafType)
        (valueType : Option DecafType),
      AnalysisVisitor_post_return line nodeType valueType ≠ [] ↔
        (valueType = Option.none ∧ nodeType ≠ DecafType.VOID) ∨
        (∃ vt, valueType = Option.some vt ∧ vt ≠ DecafType.VOID ∧
          vt ≠ nodeType)) ∧
    (∀ line : Nat,
      AnalysisVisitor_post_return line DecafType.VOID
        (Option.some DecafType.INT) =
        [Diag.returnMismatch line DecafType.VOID DecafType.INT]) := by
  constructor
  · intro line nodeType valueType
    cases valueType with
    | none =>
      by_cases hnv : nodeType = DecafType.VOID <;>
        simp [AnalysisVisitor_post_return, hnv]
    | some vt =>
      by_cases hv : vt = DecafType.VOID
      · subst hv
        simp [AnalysisVisitor_post_return]
      · by_cases hn : vt = nodeType
        · subst hn
          simp [AnalysisVisitor_post_return, hv]
        · have hn2 : nodeType ≠ vt := fun hh => hn hh.symm
          simp [AnalysisVisitor_post_return, hv, hn, hn2]
  · intro line
    rfl

/-- C8 (counterexample): a `main` declared on line 5 with one parameter in
a program whose Program node sits on line 1 yields the
main-should-not-have-parameters diagnostic carrying line 1 — the Program
node's line, because `AnalysisVisitor_check_main` runs as the Program
post-visit and uses that node's `source_line` — not main's line 5 as the
claim states. -/
theorem c8_counterexample :
    analyze (Option.some (ASTNode.Program 1
      [⟨"main", DecafType.VOID, 1, [DecafType.INT]⟩]
      ASTList.nil
      (ASTList.cons (ASTNode.FuncDecl 5 "main" DecafType.VOID
        [⟨"x", DecafType.INT, 1, []⟩]
        (ASTNode.Block 5 [] ASTList.nil ASTList.nil))
        ASTList.nil))) = Option.some [Diag.mainHasParams 1] ∧
    (1 : Nat) ≠ 5 := by
  constructor
  · decide
  · decide

/-- C8 (amended): after the whole tree is visited, a missing `main` symbol
yields exactly the one no-main diagnostic (which carries no line); a `main`
symbol with one or more parameters yields exactly the one
main-should-not-have-parameters diagnostic carrying the line passed to the
Program post-visit (the Program node's source line, not main's declaration
line), and no no-main diagnostic; a zero-parameter `main` yields
neither. -/
theorem c8_main_check (env : Scopes) (line : Nat) :
    (lookup_symbol env "main" = Option.none →
      AnalysisVisitor_check_main env line = [Diag.noMain]) ∧
    (∀ s, lookup_symbol env "main" = Option.some s → s.parameters ≠ [] →
      AnalysisVisitor_check_main env line = [Diag.mainHasParams line]) ∧
    (∀ s, lookup_symbol env "main" = Option.some s → s.parameters = [] →
      AnalysisVisitor_check_main env line = []) := by
  refine ⟨?_, ?_, ?_⟩
  · intro h
    simp [AnalysisVisitor_check_main, h]
  · intro s h hp
    simp [AnalysisVisitor_check_main, h, hp]
  · intro s h hp
    simp [AnalysisVisitor_check_main, h, hp]

/-- C8 witness: a one-parameter `main` symbol at global scope produces the
parameters diagnostic carrying the Program node's line 1. -/
theorem c8_witness :
    AnalysisVisitor_check_main
      [[⟨"main", DecafType.VOID, 1, [DecafType.INT]⟩]] 1 =
      [Diag.mainHasParams 1] :=
  (c8_main_check [[⟨"main", DecafType.VOID, 1, [DecafType.INT]⟩]] 1).2.1
    ⟨"main", DecafType.VOID, 1, [DecafType.INT]⟩ rfl (by decide)

/-- C9 (code evaluated at the failing input): the loop-context state is a
boolean flag that the WhileLoop previsit sets and nothing ever clears —
`analyze` registers no `postvisit_whileloop`, so `AnalysisVisitor_post_while`
never runs.  Visiting a WhileLoop from the initial state (flag clear)
leaves the flag still SET after the loop's subtree has been fully visited:
the state does not return to its pre-entry value, contradicting the
claimed incremented-on-entry, decremented-on-exit counter behavior. -/
theorem c9_flag_never_restored :
    AnalysisData_new.in_while = false ∧
    (visit [] (ASTNode.WhileLoop 3 (ASTNode.Literal 3 DecafType.BOOL 1)
        (ASTNode.Block 3 [] ASTList.nil ASTList.nil))
      AnalysisData_new).map
      (fun r => r.1.in_while) = Option.some true := by
  constructor
  · decide
  · decide

/-- C10 (counterexample): a call with one argument to a function that
resolves but declares ZERO parameters does not complete without a
diagnostic as the claim requires — the C code dereferences the NULL head
of the empty parameter list and crashes. -/
theorem c10_counterexample :
    AnalysisVisitor_post_funcCall [[⟨"f", DecafType.VOID, 1, []⟩]] "f"
        [DecafType.INT] 3 = Option.none ∧
    AnalysisVisitor_post_funcCall [[⟨"f", DecafType.VOID, 1, []⟩]] "f"
        [DecafType.INT] 3 ≠ Option.some [] := by
  constructor
  · decide
  · decide

/-- C10 (amended): for a FuncCall whose callee resolves to a function with
at least one declared parameter and which passes at least one argument,
only the first argument's inferred type is compared with the first declared
parameter type — the diagnostic appears exactly when they differ, and the
remaining arguments, remaining parameters, and any arity mismatch between
them are never examined; with zero declared parameters or zero arguments
the code instead dereferences null and crashes. -/
theorem c10_first_argument_only (env : Scopes) (name : String) (f : Symbol)
    (h : lookup_symbol env name = Option.some f)
    (p : DecafType) (ps : List DecafType)
    (hp : f.parameters = p :: ps)
    (a : DecafType) (rest : List DecafType) (line : Nat) :
    AnalysisVisitor_post_funcCall env name (a :: rest) line =
      Option.some (if p ≠ a then [Diag.invalidArgType line] else []) := by
  simp only [AnalysisVisitor_post_funcCall, h, hp]

/-- C10 witness: a call passing (INT, INT) to a function declared with
parameters (INT, BOOL) completes with no diagnostic — the mismatched
second argument is never examined. -/
theorem c10_witness :
    AnalysisVisitor_post_funcCall
      [[⟨"f", DecafType.VOID, 1, [DecafType.INT, DecafType.BOOL]⟩]] "f"
      [DecafType.INT, DecafType.INT] 9 = Option.some [] := by
  have h := c10_first_argument_only
    [[⟨"f", DecafType.VOID, 1, [DecafType.INT, DecafType.BOOL]⟩]] "f"
    ⟨"f", DecafType.VOID, 1, [DecafType.INT, DecafType.BOOL]⟩ rfl
    DecafType.INT [DecafType.BOOL] rfl DecafType.INT [DecafType.INT] 9
  simpa using h

end Decaf
